import Mathlib

/-!
Shallow embedding of the `trello-cli` repository (files
`src/trello_cli/trello_api.py` and `src/trello_cli/main.py`) and proofs
about it.

Modelling conventions:
* A Python string-or-None value is `PyVal := Option String`; `none` stands
  for Python `None` (and for JSON `null`), `some s` for the string `s`.
  Python truthiness on such values is `pyTruthy`.
* A JSON object, as the Python code sees it after `response.json()`, is an
  association list `RawRecord := List (String × PyVal)`; `d[k]` is
  `dictGet` (raising `KeyError` when the key is absent) and `d.get(k)` is
  `dictGetOpt` (returning `None` when absent).
* An HTTP response is its status code together with the already-decoded
  JSON body; each client method takes the response(s) the remote service
  would produce for the request(s) it issues, and returns the list of
  requests it issued (in order) together with its result.
  `requests.Response.raise_for_status` raises `HTTPError` exactly when the
  status is in 400–599 (client- or server-error range); the error message
  carries the status code and the url (the human-readable reason phrase of
  the real library is not modelled).
* Failure is `Except ApiError`; `ApiError.httpError` is
  `requests.HTTPError`, `ApiError.keyError` is Python `KeyError`.
-/

namespace Trello

/-- Python optional-string values: `none` is `None`/JSON `null`. -/
abbrev PyVal : Type := Option String

/-- Python truthiness of a string-or-None value: `None` and `""` are falsy. -/
def pyTruthy : PyVal → Bool
  | none => false
  | some s => !s.isEmpty

/-- Python truthiness of an optional list (used for `if labels:`):
`None` and the empty list are falsy. -/
def pyTruthyList : Option (List String) → Bool
  | none => false
  | some l => !l.isEmpty

/-- Python `a or b` on optional strings: yields `a` when `a` is truthy,
otherwise `b`. -/
def pyOr (a b : Option String) : Option String :=
  if pyTruthy a then a else b

/-- A decoded JSON object as the Python code manipulates it. -/
abbrev RawRecord : Type := List (String × PyVal)

/-- Errors a client call can raise: `requests.HTTPError` (carrying the
status code and the error message) or Python `KeyError`. -/
inductive ApiError where
  | httpError (status : Nat) (msg : String)
  | keyError (key : String)
  deriving DecidableEq, Repr

/-- Python `str(e)` on the exceptions we model: an `HTTPError` prints its
message, a `KeyError` prints the quoted key. -/
def ApiError.str : ApiError → String
  | .httpError _ msg => msg
  | .keyError k => "'" ++ k ++ "'"

/-- Python `d[k]` on a decoded JSON object: the value when the key is
present, `KeyError` otherwise. -/
def dictGet (d : RawRecord) (k : String) : Except ApiError PyVal :=
  match d.lookup k with
  | some v => .ok v
  | none => .error (.keyError k)

/-- Python `d.get(k)` on a decoded JSON object: `None` when the key is
absent, otherwise the stored value (which may itself be `None`). -/
def dictGetOpt (d : RawRecord) (k : String) : PyVal :=
  match d.lookup k with
  | some v => v
  | none => none

/-- An HTTP response as seen after JSON decoding: status code plus body. -/
structure HttpResponse (α : Type) where
  status : Nat
  body : α

/-- The message of a `requests.HTTPError`: status code, error class, url
(the reason phrase of the real library is not modelled). -/
def http_error_msg (status : Nat) (url : String) : String :=
  if status < 500 then toString status ++ " Client Error for url: " ++ url
  else toString status ++ " Server Error for url: " ++ url

/-- `requests.Response.raise_for_status`: raises `HTTPError` exactly when
the status code lies in 400–499 (client error) or 500–599 (server error),
and returns normally on every other status. -/
def raise_for_status (status : Nat) (url : String) : Except ApiError Unit :=
  if (400 ≤ status ∧ status < 500) ∨ (500 ≤ status ∧ status < 600) then
    .error (.httpError status (http_error_msg status url))
  else
    .ok ()

/-- One HTTP request issued by the client: method, url, query parameters
in the order the Python code inserts them into the `params` dict. -/
structure Request where
  method : String
  url : String
  params : List (String × String)
  deriving DecidableEq, Repr

/-- `TrelloAPI.BASE_URL`. -/
def BASE_URL : String := "https://api.trello.com/1"

/-- The `TrelloAPI` client object: it holds exactly the credentials. -/
structure TrelloAPI where
  api_key : String
  token : String
  deriving DecidableEq, Repr

/-- `self.auth_params`, built in `TrelloAPI.__init__`. -/
def TrelloAPI.auth_params (c : TrelloAPI) : List (String × String) :=
  [("key", c.api_key), ("token", c.token)]

/-- Projection of one board record in `get_boards`:
`{'name': board['name'], 'id': board['id']}`. -/
structure BoardRec where
  name : PyVal
  id : PyVal
  deriving DecidableEq, Repr

/-- Element transform of the comprehension in `TrelloAPI.get_boards`. -/
def project_board (b : RawRecord) : Except ApiError BoardRec := do
  let n ← dictGet b "name"
  let i ← dictGet b "id"
  return ⟨n, i⟩

/-- `TrelloAPI.get_boards`: GET `/members/me/boards` with
`fields=name,id`, raise for status, project each board. -/
def TrelloAPI.get_boards (c : TrelloAPI) (resp : HttpResponse (List RawRecord)) :
    List Request × Except ApiError (List BoardRec) :=
  let url := BASE_URL ++ "/members/me/boards"
  let params := c.auth_params ++ [("fields", "name,id")]
  let req : Request := ⟨"GET", url, params⟩
  match raise_for_status resp.status url with
  | .error e => ([req], .error e)
  | .ok _ => ([req], resp.body.mapM project_board)

/-- Projection of one label record in `get_labels_in_board`:
`name` and `color` are replaced by `'Unnamed Label'` / `'No Color'` when
falsy (empty string or `None`), `id` is passed through. -/
structure LabelRec where
  name : PyVal
  id : PyVal
  color : PyVal
  deriving DecidableEq, Repr

/-- Python conditional expression `v if v else default` on a
string-or-None value. -/
def pyIfElse (v : PyVal) (default : String) : PyVal :=
  if pyTruthy v then v else some default

/-- Element transform of the comprehension in
`TrelloAPI.get_labels_in_board`: dictionary accesses `label['name']`,
`label['id']`, `label['color']` (each raising `KeyError` when the key is
absent), with falsy name/color replaced by the display defaults. -/
def project_label (l : RawRecord) : Except ApiError LabelRec := do
  let n ← dictGet l "name"
  let i ← dictGet l "id"
  let c ← dictGet l "color"
  return ⟨pyIfElse n "Unnamed Label", i, pyIfElse c "No Color"⟩

/-- `TrelloAPI.get_labels_in_board`: GET `/boards/{board_id}/labels` with
`fields=name,id,color`, raise for status, project each label. -/
def TrelloAPI.get_labels_in_board (c : TrelloAPI) (board_id : String)
    (resp : HttpResponse (List RawRecord)) :
    List Request × Except ApiError (List LabelRec) :=
  let url := BASE_URL ++ "/boards/" ++ board_id ++ "/labels"
  let params := c.auth_params ++ [("fields", "name,id,color")]
  let req : Request := ⟨"GET", url, params⟩
  match raise_for_status resp.status url with
  | .error e => ([req], .error e)
  | .ok _ => ([req], resp.body.mapM project_label)

/-- Projection of one card record (used by `get_cards_in_list` and
`search_cards`): `{'id': card['id'], 'name': card['name'],
'shortUrl': card['shortUrl']}`. -/
structure CardRec where
  id : PyVal
  name : PyVal
  shortUrl : PyVal
  deriving DecidableEq, Repr

/-- Element transform of the card comprehensions. -/
def project_card (card : RawRecord) : Except ApiError CardRec := do
  let i ← dictGet card "id"
  let n ← dictGet card "name"
  let u ← dictGet card "shortUrl"
  return ⟨i, n, u⟩

/-- The body of a `/search` response as the code uses it: the code reads
`response.json()['cards']`, a list of card objects. -/
structure SearchBody where
  cards : List RawRecord
  deriving DecidableEq

/-- `TrelloAPI.search_cards`: GET `/search` with the query, card model
type and card fields, raise for status, project each card of the `cards`
member of the response. -/
def TrelloAPI.search_cards (c : TrelloAPI) (query : String)
    (resp : HttpResponse SearchBody) :
    List Request × Except ApiError (List CardRec) :=
  let url := BASE_URL ++ "/search"
  let params := c.auth_params ++
    [("query", query), ("modelTypes", "cards"), ("card_fields", "name,shortUrl")]
  let req : Request := ⟨"GET", url, params⟩
  match raise_for_status resp.status url with
  | .error e => ([req], .error e)
  | .ok _ => ([req], resp.body.cards.mapM project_card)

/-- The url of the comment-creation endpoint for a card. -/
def comments_url (card_id : String) : String :=
  BASE_URL ++ "/cards/" ++ card_id ++ "/actions/comments"

/-- The POST request issued by `TrelloAPI.add_comment`. -/
def add_comment_request (c : TrelloAPI) (card_id comment : String) : Request :=
  ⟨"POST", comments_url card_id, c.auth_params ++ [("text", comment)]⟩

/-- `TrelloAPI.add_comment`: POST `/cards/{card_id}/actions/comments` with
the text, raise for status, return the decoded body. -/
def TrelloAPI.add_comment (c : TrelloAPI) (card_id comment : String)
    (resp : HttpResponse RawRecord) :
    List Request × Except ApiError RawRecord :=
  match raise_for_status resp.status (comments_url card_id) with
  | .error e => ([add_comment_request c card_id comment], .error e)
  | .ok _ => ([add_comment_request c card_id comment], .ok resp.body)

/-- The query parameters of the card-creation POST in
`TrelloAPI.create_card`: auth params, `idList`, `name`, and `idLabels`
(the comma-joined label ids) only when `labels` is truthy. -/
def TrelloAPI.create_card_params (c : TrelloAPI) (list_id name : String)
    (labels : Option (List String)) : List (String × String) :=
  let params := c.auth_params ++ [("idList", list_id), ("name", name)]
  if pyTruthyList labels then
    params ++ [("idLabels", String.intercalate "," (labels.getD []))]
  else
    params

/-- The POST request issued by `TrelloAPI.create_card`. -/
def create_card_request (c : TrelloAPI) (list_id name : String)
    (labels : Option (List String)) : Request :=
  ⟨"POST", BASE_URL ++ "/cards", c.create_card_params list_id name labels⟩

/-- `TrelloAPI.create_card`: POST the new card, raise for status, then —
only when `comment` is truthy and `card.get('id')` is truthy — call
`add_comment` on the new card's id. Returns the decoded card body. -/
def TrelloAPI.create_card (c : TrelloAPI) (list_id name : String)
    (labels : Option (List String)) (comment : Option String)
    (postResp commentResp : HttpResponse RawRecord) :
    List Request × Except ApiError RawRecord :=
  let url := BASE_URL ++ "/cards"
  let req := create_card_request c list_id name labels
  match raise_for_status postResp.status url with
  | .error e => ([req], .error e)
  | .ok _ =>
    let card := postResp.body
    if pyTruthy comment && pyTruthy (dictGetOpt card "id") then
      match c.add_comment ((dictGetOpt card "id").getD "") (comment.getD "") commentResp with
      | (ccalls, .error e) => (req :: ccalls, .error e)
      | (ccalls, .ok _) => (req :: ccalls, .ok card)
    else
      ([req], .ok card)

/-- The url of the card-update endpoint for a card. -/
def card_url (card_id : String) : String :=
  BASE_URL ++ "/cards/" ++ card_id

/-- The query parameters of the PUT in `TrelloAPI.update_card`: the auth
params, then `name`, `idList` and `closed` each added only when the
corresponding argument is not `None`; `closed` is the string `'true'` or
`'false'` according to `archive`. -/
def TrelloAPI.update_card_params (c : TrelloAPI) (name list_id : Option String)
    (archive : Option Bool) : List (String × String) :=
  let params := c.auth_params
  let params := match name with
    | some v => params ++ [("name", v)]
    | none => params
  let params := match list_id with
    | some v => params ++ [("idList", v)]
    | none => params
  match archive with
  | some b => if b then params ++ [("closed", "true")] else params ++ [("closed", "false")]
  | none => params

/-- The PUT request issued by `TrelloAPI.update_card`. -/
def update_card_request (c : TrelloAPI) (card_id : String)
    (name list_id : Option String) (archive : Option Bool) : Request :=
  ⟨"PUT", card_url card_id, c.update_card_params name list_id archive⟩

/-- `TrelloAPI.update_card`: build the params from the explicitly supplied
fields; when `comment` is truthy, call `add_comment` first (before the
PUT); then PUT the card and raise for status. -/
def TrelloAPI.update_card (c : TrelloAPI) (card_id : String)
    (name list_id comment : Option String) (archive : Option Bool)
    (commentResp putResp : HttpResponse RawRecord) :
    List Request × Except ApiError RawRecord :=
  let put_req := update_card_request c card_id name list_id archive
  if pyTruthy comment then
    match c.add_comment card_id (comment.getD "") commentResp with
    | (ccalls, .error e) => (ccalls, .error e)
    | (ccalls, .ok _) =>
      match raise_for_status putResp.status (card_url card_id) with
      | .error e => (ccalls ++ [put_req], .error e)
      | .ok _ => (ccalls ++ [put_req], .ok putResp.body)
  else
    match raise_for_status putResp.status (card_url card_id) with
    | .error e => ([put_req], .error e)
    | .ok _ => ([put_req], .ok putResp.body)

/-! Command surface (`src/trello_cli/main.py`). -/

/-- The two environment variables the commands fall back to; a variable
that is unset reads as `none` (Python `os.getenv` returns `None`). -/
structure Env where
  trello_api_key : Option String
  trello_token : Option String

/-- The message `get_trello_client` prints when credentials are missing. -/
def creds_error_msg : String :=
  "Error: API key and token are required. Either:\n" ++
  "1. Set them via environment variables (.bashrc/.zshrc/etc):\n" ++
  "   TRELLO_API_KEY=your_key\n" ++
  "   TRELLO_TOKEN=your_token\n" ++
  "2. Or provide them as command line options:\n" ++
  "   --api-key and --token"

/-- `get_trello_client`: resolve each credential as the option value `or`
the environment variable; when either resolved credential is falsy, print
the configuration message and exit with code 1 (`Except.error`), otherwise
construct the `TrelloAPI` client from the resolved strings. -/
def get_trello_client (api_key token : Option String) (env : Env) :
    Except String TrelloAPI :=
  let final_api_key := pyOr api_key env.trello_api_key
  let final_token := pyOr token env.trello_token
  if !pyTruthy final_api_key || !pyTruthy final_token then
    .error creds_error_msg
  else
    .ok ⟨final_api_key.getD "", final_token.getD ""⟩

/-- Outcome of one command invocation: process exit code, the lines
printed (tables flattened to one string each), and the HTTP requests
issued, in order. -/
structure CmdOutcome where
  exitCode : Nat
  output : List String
  calls : List Request
  deriving DecidableEq, Repr

/-- Rendering of the boards table (title plus one row per board; the rich
styling is not modelled, a `None` cell renders as the empty string). -/
def render_boards_table (boards : List BoardRec) : String :=
  boards.foldl
    (fun acc b => acc ++ "\n" ++ b.name.getD "" ++ " | " ++ b.id.getD "")
    "Your Trello Boards"

/-- The `boards` command: resolve credentials (exiting with code 1 on the
configuration error, before any request is issued), call
`TrelloAPI.get_boards`, render the table on success, and on any exception
print `Error retrieving boards: ` followed by `str(e)` and exit 1. -/
def boards_command (api_key token : Option String) (env : Env)
    (resp : HttpResponse (List RawRecord)) : CmdOutcome :=
  match get_trello_client api_key token env with
  | .error msg => ⟨1, [msg], []⟩
  | .ok trello =>
    match trello.get_boards resp with
    | (calls, .error e) => ⟨1, ["Error retrieving boards: " ++ e.str], calls⟩
    | (calls, .ok bs) => ⟨0, [render_boards_table bs], calls⟩

/-- Rendering of the search-results table (title plus one row per card). -/
def render_search_table (query : String) (results : List CardRec) : String :=
  results.foldl
    (fun acc r => acc ++ "\n" ++ r.id.getD "" ++ " | " ++ r.name.getD "" ++ " | " ++ r.shortUrl.getD "")
    ("Card results for the query string: " ++ query)

/-- The `search` command: resolve credentials, call
`TrelloAPI.search_cards`; when the result list is empty print the
no-cards message and return successfully, otherwise render the table; on
any exception print `Error retrieving search results: ` plus `str(e)` and
exit 1. -/
def search_command (api_key token : Option String) (env : Env)
    (query : String) (resp : HttpResponse SearchBody) : CmdOutcome :=
  match get_trello_client api_key token env with
  | .error msg => ⟨1, [msg], []⟩
  | .ok trello =>
    match trello.search_cards query resp with
    | (calls, .error e) => ⟨1, ["Error retrieving search results: " ++ e.str], calls⟩
    | (calls, .ok results) =>
      if results.isEmpty then
        ⟨0, ["No cards found for the query string: " ++ query], calls⟩
      else
        ⟨0, [render_search_table query results], calls⟩

/-! Theorems about the embedded program. -/

/-- A non-empty string is truthy. -/
theorem pyTruthy_some (s : String) (h : s ≠ "") : pyTruthy (some s) = true := by
  show (!s.isEmpty) = true
  cases hh : s.isEmpty
  · rfl
  · exact absurd ((String.isEmpty_iff s).mp hh) h

/-- Statuses below 400 do not raise. -/
theorem raise_for_status_ok (status : Nat) (url : String) (h : status < 400) :
    raise_for_status status url = .ok () := by
  unfold raise_for_status
  rw [if_neg (by omega)]

/-- Statuses in 400–599 raise an `HTTPError` carrying the status. -/
theorem raise_for_status_error (status : Nat) (url : String)
    (h1 : 400 ≤ status) (h2 : status ≤ 599) :
    raise_for_status status url =
      .error (.httpError status (http_error_msg status url)) := by
  unfold raise_for_status
  rw [if_pos (by omega)]

/-- With two non-empty explicit credentials, `get_trello_client` builds
the client from them. -/
theorem get_trello_client_some (ak tk : String) (hak : ak ≠ "") (htk : tk ≠ "")
    (env : Env) :
    get_trello_client (some ak) (some tk) env = .ok ⟨ak, tk⟩ := by
  have h1 := pyTruthy_some ak hak
  have h2 := pyTruthy_some tk htk
  simp [get_trello_client, pyOr, h1, h2]

/-- C2: for every call to `update_card`, when `archive` is `None` the
outgoing PUT request contains no `closed` (archived) parameter; when
`archive` is explicitly `False` it contains `closed` with the explicit
string value `"false"`; when `archive` is `True` it contains
`closed = "true"`; and the PUT request issued by `update_card` carries
exactly these parameters. -/
theorem update_card_archive_tristate (c : TrelloAPI) (card_id : String)
    (name list_id : Option String) (commentResp putResp : HttpResponse RawRecord) :
    ((c.update_card_params name list_id none).lookup "closed" = none)
    ∧ ((c.update_card_params name list_id (some false)).lookup "closed" = some "false")
    ∧ ((c.update_card_params name list_id (some true)).lookup "closed" = some "true")
    ∧ (∀ archive : Option Bool,
        (c.update_card card_id name list_id none archive commentResp putResp).1 =
          [update_card_request c card_id name list_id archive]) := by
  refine ⟨?_, ?_, ?_, ?_⟩
  · cases name <;> cases list_id <;>
      simp [TrelloAPI.update_card_params, TrelloAPI.auth_params, List.lookup]
  · cases name <;> cases list_id <;>
      simp [TrelloAPI.update_card_params, TrelloAPI.auth_params, List.lookup]
  · cases name <;> cases list_id <;>
      simp [TrelloAPI.update_card_params, TrelloAPI.auth_params, List.lookup]
  · intro archive
    unfold TrelloAPI.update_card
    simp only [pyTruthy, Bool.false_eq_true, if_false]
    cases raise_for_status putResp.status (card_url card_id) <;> simp

/-- C5: for every call to `create_card`, when `labels` is `None` or the
empty list the outgoing POST contains no `idLabels` parameter at all;
when `labels` is a non-empty list the POST contains a single `idLabels`
parameter whose value is the comma-joined ids, in particular
`["a", "b"]` yields `"a,b"`. -/
theorem create_card_labels_param (c : TrelloAPI) (list_id name : String) :
    ((c.create_card_params list_id name none).lookup "idLabels" = none)
    ∧ ((c.create_card_params list_id name (some [])).lookup "idLabels" = none)
    ∧ (∀ labs : List String, labs ≠ [] →
        c.create_card_params list_id name (some labs) =
          c.auth_params ++ [("idList", list_id), ("name", name),
            ("idLabels", String.intercalate "," labs)])
    ∧ ((c.create_card_params list_id name (some ["a", "b"])).countP
          (fun p => p.1 == "idLabels") = 1)
    ∧ ((c.create_card_params list_id name (some ["a", "b"])).lookup "idLabels" =
        some "a,b") := by
  refine ⟨?_, ?_, ?_, ?_, ?_⟩
  · simp [TrelloAPI.create_card_params, pyTruthyList, TrelloAPI.auth_params, List.lookup]
  · simp [TrelloAPI.create_card_params, pyTruthyList, TrelloAPI.auth_params, List.lookup]
  · intro labs hlabs
    simp [TrelloAPI.create_card_params, pyTruthyList, List.isEmpty_iff, hlabs,
      TrelloAPI.auth_params]
  · simp [TrelloAPI.create_card_params, pyTruthyList, TrelloAPI.auth_params,
      List.countP_append, List.countP_cons]
  · show List.lookup "idLabels"
      (c.auth_params ++ [("idList", list_id), ("name", name),
        ("idLabels", String.intercalate "," ["a", "b"])]) = some "a,b"
    simp [TrelloAPI.auth_params, List.lookup]
    rfl

/-- C6: for every call to `update_card`, the outgoing PUT request carries
exactly the authentication parameters plus the explicitly supplied fields
among `name`, `idList` and `closed`, in that order; a field left unset
(`None`) is absent from the request. -/
theorem update_card_frame (c : TrelloAPI) (card_id : String)
    (name list_id : Option String) (archive : Option Bool)
    (commentResp putResp : HttpResponse RawRecord) :
    (c.update_card_params name list_id archive =
      c.auth_params
        ++ (match name with | some v => [("name", v)] | none => [])
        ++ (match list_id with | some v => [("idList", v)] | none => [])
        ++ (match archive with
            | some b => [("closed", if b then "true" else "false")]
            | none => []))
    ∧ (name = none → (c.update_card_params name list_id archive).lookup "name" = none)
    ∧ (list_id = none → (c.update_card_params name list_id archive).lookup "idList" = none)
    ∧ (archive = none → (c.update_card_params name list_id archive).lookup "closed" = none)
    ∧ ((c.update_card card_id name list_id none archive commentResp putResp).1 =
        [update_card_request c card_id name list_id archive]) := by
  refine ⟨?_, ?_, ?_, ?_, ?_⟩
  · cases name <;> cases list_id <;> rcases archive with _ | b <;> (try cases b) <;>
      simp [TrelloAPI.update_card_params]
  · rintro rfl
    cases list_id <;> rcases archive with _ | b <;> (try cases b) <;>
      simp [TrelloAPI.update_card_params, TrelloAPI.auth_params, List.lookup]
  · rintro rfl
    cases name <;> rcases archive with _ | b <;> (try cases b) <;>
      simp [TrelloAPI.update_card_params, TrelloAPI.auth_params, List.lookup]
  · rintro rfl
    cases name <;> cases list_id <;>
      simp [TrelloAPI.update_card_params, TrelloAPI.auth_params, List.lookup]
  · unfold TrelloAPI.update_card
    simp only [pyTruthy, Bool.false_eq_true, if_false]
    cases raise_for_status putResp.status (card_url card_id) <;> simp

/-- C4: for every call to `create_card` the comment call is issued only
after the card-creation POST has succeeded and only if the created card's
response contains an `id`: when the POST fails, or when the response
lacks an `id`, the only request ever issued is the creation POST itself;
and whenever any further request is issued, the POST succeeded, the
response has an `id`, and the trace is exactly the POST followed by one
`add_comment` POST on the returned id. -/
theorem create_card_comment_sequencing (c : TrelloAPI) (list_id name : String)
    (labels : Option (List String)) (comment : Option String)
    (postResp commentResp : HttpResponse RawRecord) :
    (raise_for_status postResp.status (BASE_URL ++ "/cards") ≠ .ok () →
      (c.create_card list_id name labels comment postResp commentResp).1 =
        [create_card_request c list_id name labels])
    ∧ (dictGetOpt postResp.body "id" = none →
      (c.create_card list_id name labels comment postResp commentResp).1 =
        [create_card_request c list_id name labels])
    ∧ ((c.create_card list_id name labels comment postResp commentResp).1 ≠
        [create_card_request c list_id name labels] →
      raise_for_status postResp.status (BASE_URL ++ "/cards") = .ok ()
      ∧ dictGetOpt postResp.body "id" ≠ none
      ∧ (c.create_card list_id name labels comment postResp commentResp).1 =
          [create_card_request c list_id name labels,
           add_comment_request c ((dictGetOpt postResp.body "id").getD "")
             (comment.getD "")]) := by
  refine ⟨?_, ?_, ?_⟩
  · intro h
    unfold TrelloAPI.create_card
    dsimp only
    cases hr : raise_for_status postResp.status (BASE_URL ++ "/cards") with
    | error e => rfl
    | ok u => cases u; exact absurd hr h
  · intro hid
    unfold TrelloAPI.create_card
    dsimp only
    cases hr : raise_for_status postResp.status (BASE_URL ++ "/cards") with
    | error e => rfl
    | ok u => simp [hid, pyTruthy]
  · intro hne
    unfold TrelloAPI.create_card at hne ⊢
    dsimp only at hne ⊢
    cases hr : raise_for_status postResp.status (BASE_URL ++ "/cards") with
    | error e =>
      rw [hr] at hne
      exact absurd rfl hne
    | ok u =>
      cases u
      rw [hr] at hne
      refine ⟨rfl, ?_, ?_⟩
      · intro hid
        rw [hid] at hne
        simp [pyTruthy] at hne
      · by_cases hcond : (pyTruthy comment && pyTruthy (dictGetOpt postResp.body "id")) = true
        · simp only [hcond, if_true]
          unfold TrelloAPI.add_comment
          cases raise_for_status commentResp.status
              (comments_url ((dictGetOpt postResp.body "id").getD "")) <;> simp
        · exfalso
          apply hne
          simp only [Bool.not_eq_true] at hcond
          simp only [hcond, Bool.false_eq_true, if_false]

/-- C9: for every call to `update_card` with a non-empty comment (whose
comment POST the server accepts), the comment is posted via `add_comment`
before the PUT request is issued — the trace is exactly the comment POST
followed by the PUT — and when the PUT then fails with an HTTP error the
whole call fails with that error even though the comment request was
already issued: the update is not atomic on error. -/
theorem update_card_comment_before_put (c : TrelloAPI) (card_id : String)
    (name list_id : Option String) (archive : Option Bool) (comment : String)
    (commentResp putResp : HttpResponse RawRecord)
    (hc : comment ≠ "")
    (hok : raise_for_status commentResp.status (comments_url card_id) = .ok ()) :
    ((c.update_card card_id name list_id (some comment) archive commentResp putResp).1 =
      [add_comment_request c card_id comment,
       update_card_request c card_id name list_id archive])
    ∧ (∀ e, raise_for_status putResp.status (card_url card_id) = .error e →
        (c.update_card card_id name list_id (some comment) archive commentResp putResp).2 =
          .error e) := by
  have htr : pyTruthy (some comment) = true := by
    have h1 : comment.isEmpty = false := by
      rw [Bool.eq_false_iff]
      intro h
      exact hc ((String.isEmpty_iff comment).mp h)
    simp [pyTruthy, h1]
  unfold TrelloAPI.update_card
  simp only [htr, if_true]
  unfold TrelloAPI.add_comment
  simp only [Option.getD_some, hok]
  cases raise_for_status putResp.status (card_url card_id) with
  | error e => exact ⟨rfl, fun e2 he => by injection he with h; rw [← h]⟩
  | ok u => exact ⟨rfl, fun e2 he => by cases he⟩

/-- C1 (counterexample): a 304 response is not 2xx, yet the client raises
no HTTP error on it — `raise_for_status` returns normally, `get_boards`
succeeds, and the `boards` command exits with code 0 and renders the
(empty) table. So a non-2xx response does not always fail the operation. -/
theorem non_2xx_not_always_error :
    (¬ (200 ≤ 304 ∧ 304 ≤ 299))
    ∧ raise_for_status 304 (BASE_URL ++ "/members/me/boards") = .ok ()
    ∧ boards_command (some "k") (some "t") ⟨none, none⟩ ⟨304, []⟩ =
        ⟨0, ["Your Trello Boards"],
         [⟨"GET", BASE_URL ++ "/members/me/boards",
           [("key", "k"), ("token", "t"), ("fields", "name,id")]⟩]⟩ := by
  refine ⟨by decide, rfl, rfl⟩

/-- C1 (amended): any HTTP response whose status is in the error range
400–599 causes the client call to fail with an HTTP error carrying the
status code, after exactly one request and with the error message taken
from the status alone (no retry, no reinterpretation of the payload), and
the Command Surface then exits with code 1 after printing a message made
of the operation context and the error detail — shown for the `boards`
and `search` operations. -/
theorem http_error_range_fails (s : Nat) (hs : 400 ≤ s) (hs2 : s ≤ 599)
    (ak tk : String) (hak : ak ≠ "") (htk : tk ≠ "") (env : Env)
    (body : List RawRecord) (query : String) (sbody : SearchBody) :
    ((TrelloAPI.mk ak tk).get_boards ⟨s, body⟩ =
      ([⟨"GET", BASE_URL ++ "/members/me/boards",
         [("key", ak), ("token", tk), ("fields", "name,id")]⟩],
       .error (.httpError s (http_error_msg s (BASE_URL ++ "/members/me/boards")))))
    ∧ (boards_command (some ak) (some tk) env ⟨s, body⟩ =
        ⟨1, ["Error retrieving boards: " ++
              http_error_msg s (BASE_URL ++ "/members/me/boards")],
         [⟨"GET", BASE_URL ++ "/members/me/boards",
           [("key", ak), ("token", tk), ("fields", "name,id")]⟩]⟩)
    ∧ ((TrelloAPI.mk ak tk).search_cards query ⟨s, sbody⟩ =
        ([⟨"GET", BASE_URL ++ "/search",
           [("key", ak), ("token", tk), ("query", query),
            ("modelTypes", "cards"), ("card_fields", "name,shortUrl")]⟩],
         .error (.httpError s (http_error_msg s (BASE_URL ++ "/search")))))
    ∧ (search_command (some ak) (some tk) env query ⟨s, sbody⟩ =
        ⟨1, ["Error retrieving search results: " ++
              http_error_msg s (BASE_URL ++ "/search")],
         [⟨"GET", BASE_URL ++ "/search",
           [("key", ak), ("token", tk), ("query", query),
            ("modelTypes", "cards"), ("card_fields", "name,shortUrl")]⟩]⟩) := by
  have hb : (TrelloAPI.mk ak tk).get_boards ⟨s, body⟩ =
      ([⟨"GET", BASE_URL ++ "/members/me/boards",
         [("key", ak), ("token", tk), ("fields", "name,id")]⟩],
       .error (.httpError s (http_error_msg s (BASE_URL ++ "/members/me/boards")))) := by
    unfold TrelloAPI.get_boards
    dsimp only
    rw [raise_for_status_error s _ hs hs2]
    rfl
  have hsc : (TrelloAPI.mk ak tk).search_cards query ⟨s, sbody⟩ =
      ([⟨"GET", BASE_URL ++ "/search",
         [("key", ak), ("token", tk), ("query", query),
          ("modelTypes", "cards"), ("card_fields", "name,shortUrl")]⟩],
       .error (.httpError s (http_error_msg s (BASE_URL ++ "/search")))) := by
    unfold TrelloAPI.search_cards
    dsimp only
    rw [raise_for_status_error s _ hs hs2]
    rfl
  refine ⟨hb, ?_, hsc, ?_⟩
  · unfold boards_command
    rw [get_trello_client_some ak tk hak htk env]
    dsimp only
    rw [hb]
    rfl
  · unfold search_command
    rw [get_trello_client_some ak tk hak htk env]
    dsimp only
    rw [hsc]
    rfl

/-- C3 (counterexample): a label record from which the `name` key is
entirely absent does not project to a record with name `"Unnamed Label"`:
the dictionary access raises `KeyError`, so the whole
`get_labels_in_board` call fails. -/
theorem missing_label_name_is_keyerror :
    project_label [("id", some "lab1"), ("color", some "green")] =
      .error (.keyError "name")
    ∧ (TrelloAPI.mk "k" "t").get_labels_in_board "b1"
        ⟨200, [[("id", some "lab1"), ("color", some "green")]]⟩ =
        ([⟨"GET", BASE_URL ++ "/boards/b1/labels",
           [("key", "k"), ("token", "t"), ("fields", "name,id,color")]⟩],
         .error (.keyError "name")) := by
  exact ⟨rfl, rfl⟩

/-- C3 (amended): on a success response, `get_labels_in_board` projects
each record with `project_label`; for a record carrying all three fields,
a `name` that is present but empty (or `null`) projects to
`"Unnamed Label"`, a `color` that is present but empty (or `null`)
projects to `"No Color"`, and every non-empty name and color value passes
through unchanged; a record missing a field instead raises `KeyError`. -/
theorem label_projection_defaults (c : TrelloAPI) (board_id : String)
    (status : Nat) (recs : List RawRecord) (hs : 200 ≤ status) (hs2 : status ≤ 299)
    (nv idv cv : PyVal) :
    ((c.get_labels_in_board board_id ⟨status, recs⟩).2 = recs.mapM project_label)
    ∧ (project_label [("name", nv), ("id", idv), ("color", cv)] =
        .ok ⟨pyIfElse nv "Unnamed Label", idv, pyIfElse cv "No Color"⟩)
    ∧ ((nv = none ∨ nv = some "") → pyIfElse nv "Unnamed Label" = some "Unnamed Label")
    ∧ ((cv = none ∨ cv = some "") → pyIfElse cv "No Color" = some "No Color")
    ∧ (∀ str : String, str ≠ "" → pyIfElse (some str) "Unnamed Label" = some str)
    ∧ (∀ str : String, str ≠ "" → pyIfElse (some str) "No Color" = some str) := by
  have hpass : ∀ (str : String) (d : String), str ≠ "" →
      pyIfElse (some str) d = some str := by
    intro str d hstr
    unfold pyIfElse
    rw [pyTruthy_some str hstr]
    rfl
  refine ⟨?_, ?_, ?_, ?_, fun str h => hpass str _ h, fun str h => hpass str _ h⟩
  · unfold TrelloAPI.get_labels_in_board
    dsimp only
    rw [raise_for_status_ok status _ (by omega)]
  · rfl
  · rintro (rfl | rfl) <;> rfl
  · rintro (rfl | rfl) <;> rfl

/-- C7: for every query whose search response is a success carrying zero
cards, `search_cards` returns the empty sequence and the `search`
subcommand prints `No cards found for the query string: {query}` instead
of rendering a table, exiting successfully (code 0). -/
theorem search_empty_result (ak tk : String) (hak : ak ≠ "") (htk : tk ≠ "")
    (env : Env) (query : String) (status : Nat) (hs : 200 ≤ status)
    (hs2 : status ≤ 299) :
    (((TrelloAPI.mk ak tk).search_cards query ⟨status, ⟨[]⟩⟩).2 = .ok [])
    ∧ (search_command (some ak) (some tk) env query ⟨status, ⟨[]⟩⟩ =
        ⟨0, ["No cards found for the query string: " ++ query],
         [⟨"GET", BASE_URL ++ "/search",
           [("key", ak), ("token", tk), ("query", query),
            ("modelTypes", "cards"), ("card_fields", "name,shortUrl")]⟩]⟩) := by
  have hsc : (TrelloAPI.mk ak tk).search_cards query ⟨status, ⟨[]⟩⟩ =
      ([⟨"GET", BASE_URL ++ "/search",
         [("key", ak), ("token", tk), ("query", query),
          ("modelTypes", "cards"), ("card_fields", "name,shortUrl")]⟩],
       .ok []) := by
    unfold TrelloAPI.search_cards
    dsimp only
    rw [raise_for_status_ok status _ (by omega)]
    rfl
  refine ⟨by rw [hsc], ?_⟩
  unfold search_command
  rw [get_trello_client_some ak tk hak htk env]
  dsimp only
  rw [hsc]
  rfl

/-- C8: for every command invocation, each credential resolves to the
explicit option value when that value is truthy and otherwise to the
environment variable; when either resolved credential is missing, the
command fails with exit code 1 printing the usage message (which names
both configuration methods), and no network request is issued. -/
theorem credential_resolution (ak tk : Option String) (env : Env) :
    (pyTruthy ak = true → pyOr ak env.trello_api_key = ak)
    ∧ (pyTruthy ak = false → pyOr ak env.trello_api_key = env.trello_api_key)
    ∧ (pyTruthy tk = true → pyOr tk env.trello_token = tk)
    ∧ (pyTruthy tk = false → pyOr tk env.trello_token = env.trello_token)
    ∧ ((pyTruthy (pyOr ak env.trello_api_key) = false ∨
         pyTruthy (pyOr tk env.trello_token) = false) →
        get_trello_client ak tk env = .error creds_error_msg
        ∧ (∀ resp, boards_command ak tk env resp = ⟨1, [creds_error_msg], []⟩)
        ∧ (∀ query resp, search_command ak tk env query resp = ⟨1, [creds_error_msg], []⟩))
    ∧ ("environment variables".data.IsInfix creds_error_msg.data)
    ∧ ("--api-key and --token".data.IsInfix creds_error_msg.data) := by
  refine ⟨?_, ?_, ?_, ?_, ?_,
    by set_option maxRecDepth 40000 in decide,
    by set_option maxRecDepth 40000 in decide⟩
  · intro h
    unfold pyOr
    rw [h]
    rfl
  · intro h
    unfold pyOr
    rw [h]
    rfl
  · intro h
    unfold pyOr
    rw [h]
    rfl
  · intro h
    unfold pyOr
    rw [h]
    rfl
  · intro hcond
    have hc : (!pyTruthy (pyOr ak env.trello_api_key) ||
        !pyTruthy (pyOr tk env.trello_token)) = true := by
      rcases hcond with h | h <;> simp [h]
    have herr : get_trello_client ak tk env = .error creds_error_msg := by
      unfold get_trello_client
      dsimp only
      rw [hc]
      rfl
    refine ⟨herr, ?_, ?_⟩
    · intro resp
      unfold boards_command
      rw [herr]
    · intro query resp
      unfold search_command
      rw [herr]

/-- C10: an `--api-key` or `--token` option supplied as the empty string
is treated as absent — `get_trello_client` behaves exactly as if the
option were not given and falls back to the environment variable — and
the configuration error is raised if and only if, for at least one of the
two credentials, both the option value and the environment variable are
empty or unset. -/
theorem empty_option_falls_back (ak tk : Option String) (env : Env) :
    (get_trello_client (some "") tk env = get_trello_client none tk env)
    ∧ (get_trello_client ak (some "") env = get_trello_client ak none env)
    ∧ (get_trello_client ak tk env = .error creds_error_msg ↔
        ((pyTruthy ak = false ∧ pyTruthy env.trello_api_key = false) ∨
         (pyTruthy tk = false ∧ pyTruthy env.trello_token = false))) := by
  have key : ∀ a b : Option String,
      pyTruthy (pyOr a b) = false ↔ (pyTruthy a = false ∧ pyTruthy b = false) := by
    intro a b
    unfold pyOr
    cases h : pyTruthy a <;> simp [h]
  refine ⟨rfl, rfl, ?_⟩
  have hshape : get_trello_client ak tk env = .error creds_error_msg ↔
      (!pyTruthy (pyOr ak env.trello_api_key) ||
        !pyTruthy (pyOr tk env.trello_token)) = true := by
    unfold get_trello_client
    dsimp only
    cases hc : (!pyTruthy (pyOr ak env.trello_api_key) ||
        !pyTruthy (pyOr tk env.trello_token)) <;> simp
  rw [hshape]
  rw [Bool.or_eq_true, Bool.not_eq_true', Bool.not_eq_true']
  rw [key, key]

/-! Witness instantiations of the theorems above at concrete inputs. -/

/-- Witness for C1: at status 404 with valid credentials, the `boards`
command exits 1 with the contextualised error line. -/
theorem http_error_range_fails_witness :
    boards_command (some "k") (some "t") ⟨none, none⟩ ⟨404, []⟩ =
      ⟨1, ["Error retrieving boards: " ++
            http_error_msg 404 (BASE_URL ++ "/members/me/boards")],
       [⟨"GET", BASE_URL ++ "/members/me/boards",
         [("key", "k"), ("token", "t"), ("fields", "name,id")]⟩]⟩ :=
  (http_error_range_fails 404 (by decide) (by decide) "k" "t" (by decide)
    (by decide) ⟨none, none⟩ [] "q" ⟨[]⟩).2.1

/-- Witness for C3: with a record carrying an empty name and a null
color, both defaults are substituted; a non-empty color passes through. -/
theorem label_projection_defaults_witness :
    project_label [("name", some ""), ("id", some "i1"), ("color", none)] =
      .ok ⟨pyIfElse (some "") "Unnamed Label", some "i1", pyIfElse none "No Color"⟩
    ∧ pyIfElse (some "") "Unnamed Label" = some "Unnamed Label"
    ∧ pyIfElse none "No Color" = some "No Color"
    ∧ pyIfElse (some "green") "No Color" = some "green" := by
  have h := label_projection_defaults (TrelloAPI.mk "k" "t") "b" 200 []
    (by decide) (by decide) (some "") (some "i1") none
  exact ⟨h.2.1, h.2.2.1 (Or.inr rfl), h.2.2.2.1 (Or.inl rfl),
    h.2.2.2.2.2 "green" (by decide)⟩

/-- Witness for C4: a successful creation whose response has an id,
together with a comment, issues the POST and then the comment call. -/
theorem create_card_comment_sequencing_witness :
    raise_for_status 200 (BASE_URL ++ "/cards") = .ok ()
    ∧ dictGetOpt [("id", some "c1")] "id" ≠ none
    ∧ ((TrelloAPI.mk "k" "t").create_card "L" "N" none (some "hi")
        ⟨200, [("id", some "c1")]⟩ ⟨200, []⟩).1 =
        [create_card_request (TrelloAPI.mk "k" "t") "L" "N" none,
         add_comment_request (TrelloAPI.mk "k" "t")
           ((dictGetOpt [("id", some "c1")] "id").getD "") ((some "hi").getD "")] :=
  (create_card_comment_sequencing (TrelloAPI.mk "k" "t") "L" "N" none (some "hi")
    ⟨200, [("id", some "c1")]⟩ ⟨200, []⟩).2.2 (by decide)

/-- Witness for C5: labels `["x", "y"]` are sent as a single comma-joined
`idLabels` parameter. -/
theorem create_card_labels_param_witness :
    (TrelloAPI.mk "k" "t").create_card_params "L1" "Task" (some ["x", "y"]) =
      (TrelloAPI.mk "k" "t").auth_params ++
        [("idList", "L1"), ("name", "Task"),
         ("idLabels", String.intercalate "," ["x", "y"])] :=
  (create_card_labels_param (TrelloAPI.mk "k" "t") "L1" "Task").2.2.1
    ["x", "y"] (by decide)

/-- Witness for C6: with every optional field unset, the PUT parameters
contain none of `name`, `idList`, `closed`. -/
theorem update_card_frame_witness :
    ((TrelloAPI.mk "k" "t").update_card_params none none none).lookup "name" = none
    ∧ ((TrelloAPI.mk "k" "t").update_card_params none none none).lookup "idList" = none
    ∧ ((TrelloAPI.mk "k" "t").update_card_params none none none).lookup "closed" = none :=
  ⟨(update_card_frame (TrelloAPI.mk "k" "t") "c1" none none none ⟨200, []⟩ ⟨200, []⟩).2.1 rfl,
   (update_card_frame (TrelloAPI.mk "k" "t") "c1" none none none ⟨200, []⟩ ⟨200, []⟩).2.2.1 rfl,
   (update_card_frame (TrelloAPI.mk "k" "t") "c1" none none none ⟨200, []⟩ ⟨200, []⟩).2.2.2.1 rfl⟩

/-- Witness for C7: at status 200 with zero cards, the `search` command
prints the no-cards message and exits 0. -/
theorem search_empty_result_witness :
    search_command (some "k") (some "t") ⟨none, none⟩ "foo" ⟨200, ⟨[]⟩⟩ =
      ⟨0, ["No cards found for the query string: " ++ "foo"],
       [⟨"GET", BASE_URL ++ "/search",
         [("key", "k"), ("token", "t"), ("query", "foo"),
          ("modelTypes", "cards"), ("card_fields", "name,shortUrl")]⟩]⟩ :=
  (search_empty_result "k" "t" (by decide) (by decide) ⟨none, none⟩ "foo" 200
    (by decide) (by decide)).2

/-- Witness for C8: with no options and no environment variables, the
commands fail with the usage message and make no request. -/
theorem credential_resolution_witness :
    get_trello_client none none ⟨none, none⟩ = .error creds_error_msg
    ∧ boards_command none none ⟨none, none⟩ ⟨200, []⟩ = ⟨1, [creds_error_msg], []⟩
    ∧ search_command none none ⟨none, none⟩ "q" ⟨200, ⟨[]⟩⟩ = ⟨1, [creds_error_msg], []⟩ := by
  have h := (credential_resolution none none ⟨none, none⟩).2.2.2.2.1 (Or.inl rfl)
  exact ⟨h.1, h.2.1 ⟨200, []⟩, h.2.2 "q" ⟨200, ⟨[]⟩⟩⟩

/-- Witness for C9: update of card `c1` with comment `hi`, comment POST
accepted, PUT rejected with 500: the comment call precedes the PUT and
the operation fails with the PUT's error. -/
theorem update_card_comment_before_put_witness :
    ((TrelloAPI.mk "k" "t").update_card "c1" none none (some "hi") none
        ⟨200, []⟩ ⟨500, []⟩).1 =
      [add_comment_request (TrelloAPI.mk "k" "t") "c1" "hi",
       update_card_request (TrelloAPI.mk "k" "t") "c1" none none none]
    ∧ ((TrelloAPI.mk "k" "t").update_card "c1" none none (some "hi") none
        ⟨200, []⟩ ⟨500, []⟩).2 =
      .error (.httpError 500 (http_error_msg 500 (card_url "c1"))) := by
  have h := update_card_comment_before_put (TrelloAPI.mk "k" "t") "c1" none none
    none "hi" ⟨200, []⟩ ⟨500, []⟩ (by decide) rfl
  exact ⟨h.1, h.2 (.httpError 500 (http_error_msg 500 (card_url "c1"))) rfl⟩

/-- Witness for C10: with both credentials absent everywhere, the
configuration error is raised. -/
theorem empty_option_falls_back_witness :
    get_trello_client none none ⟨some "", some ""⟩ = .error creds_error_msg :=
  (empty_option_falls_back none none ⟨some "", some ""⟩).2.2.mpr
    (Or.inl ⟨rfl, rfl⟩)

end Trello
